import Mathlib

/-!
Shallow embedding of `performance-test.js` (class `PerformanceAnalyzer`).

JavaScript numbers are modelled as `ℚ`, extended with `NaN` and infinities
(`JNum`) where the source can produce them (division by zero, `Math.round`).
A JavaScript value that is either a number or a string (the
`utilizationRate` field produced by `analyzeBundleSize`) is modelled by
`JSValue`.  `Number.prototype.toFixed(2)` and the implicit `ToNumber`
coercion applied by `<` on strings are modelled by `toFixed2` and
`jsToNumber`.
-/

/-- A JavaScript number that may be `NaN` or `Infinity`. -/
inductive JNum where
  | val (q : ℚ)
  | nan
  | inf (pos : Bool)
deriving DecidableEq

/-- Whether a `JNum` is an ordinary (finite) numeric value. -/
def JNum.isVal : JNum → Bool
  | .val _ => true
  | _ => false

/-- A JavaScript value that is either a number or a string. -/
inductive JSValue where
  | num (q : ℚ)
  | str (s : String)
deriving DecidableEq

/-- Decimal digits of `n`, most significant first; `fuel` bounds recursion
(callers pass `n + 1`, which is always enough). -/
def natDigitsAux : Nat → Nat → List Char
  | 0, _ => []
  | fuel + 1, n =>
    if n < 10 then [Nat.digitChar n]
    else natDigitsAux fuel (n / 10) ++ [Nat.digitChar (n % 10)]

/-- Decimal digits of `n`, most significant first. -/
def natDigits (n : Nat) : List Char := natDigitsAux (n + 1) n

/-- The integer `n` with `n / 100` closest to `x` (ties away from zero for
`x ≥ 0`), as in the ECMAScript `toFixed` specification; meaningful for
`x ≥ 0`. -/
def hundredths (x : ℚ) : Nat := (Rat.floor (x * 100 + 1 / 2)).toNat

/-- Render `n` hundredths as a decimal numeral with two fractional digits. -/
def toFixed2Digits (n : Nat) : List Char :=
  natDigits (n / 100) ++ '.' :: [Nat.digitChar (n % 100 / 10), Nat.digitChar (n % 100 % 10)]

/-- Character list of `x.toFixed(2)`. -/
def toFixed2L (x : ℚ) : List Char :=
  if x < 0 then '-' :: toFixed2Digits (hundredths (-x)) else toFixed2Digits (hundredths x)

/-- The string `x.toFixed(2)`. -/
def toFixed2 (x : ℚ) : String := String.mk (toFixed2L x)

/-- The exact numeric value denoted by the string `x.toFixed(2)`. -/
def toFixed2Val (x : ℚ) : ℚ :=
  if x < 0 then -((hundredths (-x) : ℚ) / 100) else (hundredths x : ℚ) / 100

/-- Numeric value of a decimal digit character. -/
def digitVal (c : Char) : ℚ := (c.toNat : ℚ) - 48

/-- Value of a digit string read as a natural number. -/
def parseNatQ (cs : List Char) : ℚ := cs.foldl (fun a c => a * 10 + digitVal c) 0

/-- Read an unsigned decimal numeral: digits, then optionally `.` and a
fractional part. -/
def parseAcc : ℚ → List Char → ℚ
  | acc, [] => acc
  | acc, c :: cs =>
    if c = '.' then acc + parseNatQ cs / 10 ^ cs.length
    else parseAcc (acc * 10 + digitVal c) cs

/-- Read a decimal numeral with an optional leading minus sign (the
`ToNumber` coercion restricted to the strings this program produces). -/
def parseDecL (cs : List Char) : ℚ :=
  match cs with
  | [] => 0
  | c :: rest => if c = '-' then -(parseAcc 0 rest) else parseAcc 0 (c :: rest)

/-- JavaScript `ToNumber` coercion of a `JSValue`. -/
def jsToNumber : JSValue → ℚ
  | .num q => q
  | .str s => parseDecL s.data

/-- JavaScript `v < q` where `v` may be a string (coerced via `ToNumber`). -/
def jsLt (v : JSValue) (q : ℚ) : Bool := decide (jsToNumber v < q)

/-- JavaScript division: `0 / 0 = NaN`, `x / 0 = ±Infinity` for `x ≠ 0`. -/
def jsDiv (x y : ℚ) : JNum :=
  if y = 0 then (if x = 0 then JNum.nan else JNum.inf (0 < x)) else JNum.val (x / y)

/-- JavaScript `Math.round` (half toward positive infinity); `NaN` and
infinities pass through. -/
def jsRound : JNum → JNum
  | .val q => .val ((Rat.floor (q + 1 / 2) : ℤ) : ℚ)
  | n => n

/-! ## Data model -/

/-- One used byte range of a covered resource (fields `range.start`,
`range.end` in the source). -/
structure CoverageRange where
  start : Int
  «end» : Int
deriving DecidableEq

/-- One entry of the list returned by `page.coverage.stopJSCoverage()` /
`stopCSSCoverage()`: the resource text and its used ranges. -/
structure CoverageEntry where
  text : String
  ranges : List CoverageRange
deriving DecidableEq

/-- Per-asset-class statistics produced by `analyzeBundleSize`. -/
structure BundleStat where
  totalSize : Int
  usedSize : Int
  unusedSize : Int
  utilizationRate : JSValue
deriving DecidableEq

/-- Result of `analyzeBundleSize`. -/
structure BundleAnalysis where
  javascript : BundleStat
  css : BundleStat
deriving DecidableEq

/-- One captured Web Vital (`{ value, rating }`). -/
structure WebVital where
  value : ℚ
  rating : String
deriving DecidableEq

/-- The vitals mapping assembled by `getWebVitals`; only the `LCP` and
`FID` keys are read by the scoring and recommendation code, and either may
be absent. -/
structure WebVitals where
  LCP : Option WebVital
  FID : Option WebVital
deriving DecidableEq

/-- The fields of the `getResourceMetrics` result that the scoring and
recommendation code reads. -/
structure ResourceMetrics where
  totalResources : Nat
  totalSize : ℚ
deriving DecidableEq

/-- Result of `getLighthouseMetrics` (point-in-time browser counters). -/
structure LighthouseMetrics where
  JSHeapUsedSize : ℚ
  JSHeapTotalSize : ℚ
  JSEventListeners : ℚ
  Nodes : ℚ
  Documents : ℚ
  Frames : ℚ
  TaskDuration : ℚ
deriving DecidableEq

/-- The per-page result record assembled by `analyzePage`. -/
structure PageAnalysisResult where
  pageName : String
  url : String
  timestamp : String
  loadTime : ℚ
  webVitals : WebVitals
  resourceMetrics : ResourceMetrics
  bundleAnalysis : BundleAnalysis
  lighthouseMetrics : LighthouseMetrics
deriving DecidableEq

/-! ## Coverage-based bundle analyzer -/

/-- The `totalJSSize` / `totalCSSSize` accumulation of
`analyzeBundleSize`: `total += coverage.text.length` over all entries. -/
def coverageTotalSize (cov : List CoverageEntry) : Int :=
  cov.foldl (fun acc c => acc + (c.text.length : Int)) 0

/-- The `usedJSSize` / `usedCSSSize` accumulation of `analyzeBundleSize`:
`used += range.end - range.start` over all ranges of all entries. -/
def coverageUsedSize (cov : List CoverageEntry) : Int :=
  cov.foldl (fun acc c => c.ranges.foldl (fun a r => a + (r.«end» - r.start)) acc) 0

/-- One asset-class record of the `analyzeBundleSize` result:
`utilizationRate` is the `toFixed(2)` string of `used / total * 100` when
the total is positive, and the number `0` otherwise. -/
def mkBundleStat (totalSize usedSize : Int) : BundleStat :=
  { totalSize := totalSize
    usedSize := usedSize
    unusedSize := totalSize - usedSize
    utilizationRate :=
      if totalSize > 0 then
        JSValue.str (toFixed2 ((usedSize : ℚ) / (totalSize : ℚ) * 100))
      else JSValue.num 0 }

/-- `PerformanceAnalyzer.analyzeBundleSize`. -/
def analyzeBundleSize (jsCoverage cssCoverage : List CoverageEntry) : BundleAnalysis :=
  { javascript := mkBundleStat (coverageTotalSize jsCoverage) (coverageUsedSize jsCoverage)
    css := mkBundleStat (coverageTotalSize cssCoverage) (coverageUsedSize cssCoverage) }

/-! ## Resource classifier -/

/-- `url.match(/\.(ext|...)$/)` for a fixed extension: the url ends with
`.ext`. -/
def endsWith (suffix : String) (url : String) : Bool :=
  decide (suffix.data <:+ url.data)

/-- The `/\.(js|jsx|ts|tsx)$/` test. -/
def matchesScripts (url : String) : Bool :=
  endsWith (".js") url || endsWith (".jsx") url || endsWith (".ts") url || endsWith (".tsx") url

/-- The `/\.(css|scss|sass)$/` test. -/
def matchesStylesheets (url : String) : Bool :=
  endsWith (".css") url || endsWith (".scss") url || endsWith (".sass") url

/-- The `/\.(jpg|jpeg|png|gif|webp|avif|svg)$/` test. -/
def matchesImages (url : String) : Bool :=
  endsWith (".jpg") url || endsWith (".jpeg") url || endsWith (".png") url ||
  endsWith (".gif") url || endsWith (".webp") url || endsWith (".avif") url ||
  endsWith (".svg") url

/-- The `/\.(woff|woff2|ttf|otf|eot)$/` test. -/
def matchesFonts (url : String) : Bool :=
  endsWith (".woff") url || endsWith (".woff2") url || endsWith (".ttf") url ||
  endsWith (".otf") url || endsWith (".eot") url

/-- `PerformanceAnalyzer.getResourceType`. -/
def getResourceType (url : String) : String :=
  if matchesScripts url then "scripts"
  else if matchesStylesheets url then "stylesheets"
  else if matchesImages url then "images"
  else if matchesFonts url then "fonts"
  else "other"

/-! ## Scoring and recommendation engine -/

/-- JavaScript `o?.value > q`: `false` when the key is absent. -/
def optValGt (o : Option WebVital) (q : ℚ) : Bool :=
  match o with
  | none => false
  | some v => decide (v.value > q)

/-- The recommendation strings pushed by `generateRecommendations`. -/
def jsUtilMsg : String :=
  "⚠️ **JavaScript utilization is low** - Consider code splitting to reduce unused code"

def cssUtilMsg : String :=
  "⚠️ **CSS utilization is low** - Remove unused CSS rules or implement critical CSS"

def slowLoadMsg : String :=
  "⚠️ **Slow loading time** - Optimize images, enable compression, and implement caching"

def manyResourcesMsg : String :=
  "⚠️ **Too many resources** - Consider bundling and reducing HTTP requests"

def poorLCPMsg : String :=
  "⚠️ **Poor LCP** - Optimize largest contentful paint by optimizing images and critical resources"

def poorFIDMsg : String :=
  "⚠️ **Poor FID** - Reduce JavaScript execution time and optimize event handlers"

def greatPerfMsg : String :=
  "✅ **Great performance!** - All metrics are within acceptable ranges"

/-- `PerformanceAnalyzer.generateRecommendations` (the pushed list, before
`join`). -/
def generateRecommendations (results : PageAnalysisResult) : List String :=
  let recommendations : List String := []
  let recommendations :=
    if jsLt results.bundleAnalysis.javascript.utilizationRate 50 then
      recommendations ++ [jsUtilMsg] else recommendations
  let recommendations :=
    if jsLt results.bundleAnalysis.css.utilizationRate 60 then
      recommendations ++ [cssUtilMsg] else recommendations
  let recommendations :=
    if results.loadTime > 3000 then recommendations ++ [slowLoadMsg] else recommendations
  let recommendations :=
    if results.resourceMetrics.totalResources > 100 then
      recommendations ++ [manyResourcesMsg] else recommendations
  let recommendations :=
    if optValGt results.webVitals.LCP 2500 then
      recommendations ++ [poorLCPMsg] else recommendations
  let recommendations :=
    if optValGt results.webVitals.FID 100 then
      recommendations ++ [poorFIDMsg] else recommendations
  if recommendations.isEmpty then [greatPerfMsg] else recommendations

/-- The per-page `pageScore` accumulated inside
`PerformanceAnalyzer.calculateOverallScore` (before the `Math.max(0, ·)`
clamp). -/
def pageScoreRaw (result : PageAnalysisResult) : ℚ :=
  let pageScore : ℚ := 100
  let pageScore := if result.loadTime > 3000 then pageScore - 20 else pageScore
  let pageScore := if result.loadTime > 5000 then pageScore - 30 else pageScore
  let pageScore :=
    if jsLt result.bundleAnalysis.javascript.utilizationRate 50 then pageScore - 15
    else pageScore
  let pageScore :=
    if jsLt result.bundleAnalysis.css.utilizationRate 60 then pageScore - 10 else pageScore
  let pageScore := if optValGt result.webVitals.LCP 2500 then pageScore - 25 else pageScore
  let pageScore := if optValGt result.webVitals.FID 100 then pageScore - 20 else pageScore
  pageScore

/-- `PerformanceAnalyzer.calculateOverallScore`:
`Math.round(totalScore / results.length)` over the clamped per-page
scores (`NaN` for an empty list, by `0 / 0`). -/
def calculateOverallScore (results : List PageAnalysisResult) : JNum :=
  let totalScore : ℚ := results.foldl (fun acc r => acc + max 0 (pageScoreRaw r)) 0
  jsRound (jsDiv totalScore (results.length : ℚ))

/-! ## Report writer and batch runner -/

/-- The object written to `overall-summary.json` by
`generateOverallSummary` (the wall-clock `timestamp` field is omitted). -/
structure OverallSummary where
  totalPages : Nat
  averageLoadTime : JNum
  performanceScore : JNum
deriving DecidableEq

/-- `PerformanceAnalyzer.generateOverallSummary` (the computed summary
object; its `fs.writeFileSync` persistence is modelled at the
`runFullAnalysis` level). -/
def generateOverallSummary (results : List PageAnalysisResult) : OverallSummary :=
  { totalPages := results.length
    averageLoadTime := jsDiv (results.foldl (fun sum r => sum + r.loadTime) 0) (results.length : ℚ)
    performanceScore := calculateOverallScore results }

/-- Events on the external browser process. -/
inductive BrowserEvent where
  | launch
  | close
deriving DecidableEq

/-- The outcome of every external effect one `analyzePage` call performs,
in source order: whether `puppeteer.launch` succeeds, then the results of
page setup (`newPage`/`setCacheEnabled`/`setViewport`/coverage start),
`page.goto` (yielding `loadTime`), `getWebVitals`, `getResourceMetrics`,
`stopJSCoverage`, `stopCSSCoverage`, `getLighthouseMetrics`, and
`saveResults` (the per-page `fs.writeFileSync` calls). -/
structure PageRun where
  url : String
  pageName : String
  timestamp : String
  launchOk : Bool
  setup : Except String Unit
  navigation : Except String ℚ
  webVitals : Except String WebVitals
  resourceMetrics : Except String ResourceMetrics
  jsCoverage : Except String (List CoverageEntry)
  cssCoverage : Except String (List CoverageEntry)
  lighthouseMetrics : Except String LighthouseMetrics
  save : Except String Unit

/-- The `try` body of `PerformanceAnalyzer.analyzePage`: each phase either
yields its value or throws; the result record is assembled and then saved. -/
def analyzePageAux (run : PageRun) : Except String PageAnalysisResult := do
  let _ ← run.setup
  let loadTime ← run.navigation
  let webVitals ← run.webVitals
  let resourceMetrics ← run.resourceMetrics
  let jsCoverage ← run.jsCoverage
  let cssCoverage ← run.cssCoverage
  let bundleAnalysis := analyzeBundleSize jsCoverage cssCoverage
  let lighthouseMetrics ← run.lighthouseMetrics
  let results : PageAnalysisResult :=
    { pageName := run.pageName
      url := run.url
      timestamp := run.timestamp
      loadTime := loadTime
      webVitals := webVitals
      resourceMetrics := resourceMetrics
      bundleAnalysis := bundleAnalysis
      lighthouseMetrics := lighthouseMetrics }
  let _ ← run.save
  pure results

/-- `PerformanceAnalyzer.analyzePage`: `puppeteer.launch`, then the body
inside `try ... finally browser.close()`.  The second component is the
trace of browser-process events. -/
def analyzePage (run : PageRun) : Except String PageAnalysisResult × List BrowserEvent :=
  if run.launchOk then (analyzePageAux run, [BrowserEvent.launch, BrowserEvent.close])
  else (Except.error ("Failed to launch the browser process"), [])

/-- The successful results accumulated by the `for ... try/catch` loop of
`runFullAnalysis`: a page whose `analyzePage` throws is logged and
skipped. -/
def batchResults (pages : List PageRun) : List PageAnalysisResult :=
  pages.filterMap (fun p => ((analyzePage p).1).toOption)

/-- `PerformanceAnalyzer.runFullAnalysis`: analyze every page, isolating
per-page failures, then compute the overall summary and persist it
(`summaryWrite` is the outcome of the final `fs.writeFileSync`, the only
uncaught effect). -/
def runFullAnalysis (pages : List PageRun) (summaryWrite : Except String Unit) :
    Except String (List PageAnalysisResult × OverallSummary) :=
  let results := batchResults pages
  let summary := generateOverallSummary results
  match summaryWrite with
  | Except.error e => Except.error e
  | Except.ok _ => Except.ok (results, summary)

/-- The CLI entry: `runFullAnalysis().then(() => process.exit(0)).catch(err
=> process.exit(1))`. -/
def cliExit (pages : List PageRun) (summaryWrite : Except String Unit) : Nat :=
  match runFullAnalysis pages summaryWrite with
  | Except.ok _ => 0
  | Except.error _ => 1

/-! ## Predicates used to state the verified properties -/

/-- Ranges are ordered, pairwise non-overlapping and contained in
`[lo, len]` — the shape the browser's coverage mechanism guarantees. -/
def rangesOK (len : Int) : Int → List CoverageRange → Bool
  | _, [] => true
  | lo, r :: rest =>
    decide (lo ≤ r.start) && decide (r.start ≤ r.«end») && decide (r.«end» ≤ len) &&
    rangesOK len r.«end» rest

/-- A coverage entry is well formed when its used ranges are ordered,
non-overlapping byte ranges inside its text. -/
def CoverageEntry.wellFormed (e : CoverageEntry) : Bool :=
  rangesOK (e.text.length : Int) 0 e.ranges

/-- The used bytes a single coverage entry contributes. -/
def entryUsed (c : CoverageEntry) : Int :=
  (c.ranges.map (fun r => r.«end» - r.start)).sum

/-- The bundle-stat invariants claimed by the specification: used bytes
within totals, non-negative unused bytes, utilization percent (under
numeric coercion) in `[0, 100]`, and the number `0` when the total is
zero. -/
def bundleInvariant (b : BundleStat) : Prop :=
  b.usedSize ≤ b.totalSize ∧ 0 ≤ b.unusedSize ∧
  0 ≤ jsToNumber b.utilizationRate ∧ jsToNumber b.utilizationRate ≤ 100 ∧
  (b.totalSize = 0 → b.utilizationRate = JSValue.num 0)

/-- A string that ends in a decimal point followed by exactly two digit
characters. -/
def twoFracDigits (s : String) : Prop :=
  ∃ a d₁ d₂, s.data = a ++ ['.', d₁, d₂] ∧ d₁.isDigit = true ∧ d₂.isDigit = true

/-! ## Concrete inputs used by the witnesses and counterexamples -/

/-- A 10-byte resource of which the first 4 bytes were used (40%). -/
def entry10of4 : CoverageEntry :=
  { text := "aaaaaaaaaa", ranges := [{ start := 0, «end» := 4 }] }

/-- A 10-byte resource of which the first 7 bytes were used (70%). -/
def entry10of7 : CoverageEntry :=
  { text := "aaaaaaaaaa", ranges := [{ start := 0, «end» := 7 }] }

/-- A 10-byte resource of which the first 8 bytes were used (80%). -/
def entry10of8 : CoverageEntry :=
  { text := "aaaaaaaaaa", ranges := [{ start := 0, «end» := 8 }] }

/-- A malformed coverage entry: a 1-byte text with a reported used range
of 5 bytes. -/
def badEntry : CoverageEntry :=
  { text := "a", ranges := [{ start := 0, «end» := 5 }] }

/-- Quiescent heap counters. -/
def heapZero : LighthouseMetrics :=
  { JSHeapUsedSize := 0, JSHeapTotalSize := 0, JSEventListeners := 0,
    Nodes := 0, Documents := 0, Frames := 0, TaskDuration := 0 }

/-- The scenario of the first scoring acceptance test: 4000 ms load, 40%
JavaScript utilization, 70% CSS utilization, no LCP or FID samples, few
resources. -/
def page4 : PageAnalysisResult :=
  { pageName := "home"
    url := "http://localhost:3000/"
    timestamp := "2026-01-01T00:00:00.000Z"
    loadTime := 4000
    webVitals := { LCP := none, FID := none }
    resourceMetrics := { totalResources := 20, totalSize := 100000 }
    bundleAnalysis := analyzeBundleSize [entry10of4] [entry10of7]
    lighthouseMetrics := heapZero }

/-- The scenario of the second scoring acceptance test: 6000 ms load, 80%
JavaScript and CSS utilization, LCP 3000 ms, FID 150 ms. -/
def page5 : PageAnalysisResult :=
  { pageName := "dashboard"
    url := "http://localhost:3000/dashboard"
    timestamp := "2026-01-01T00:00:00.000Z"
    loadTime := 6000
    webVitals :=
      { LCP := some { value := 3000, rating := "poor" }
        FID := some { value := 150, rating := "poor" } }
    resourceMetrics := { totalResources := 20, totalSize := 100000 }
    bundleAnalysis := analyzeBundleSize [entry10of8] [entry10of8]
    lighthouseMetrics := heapZero }

/-- A page run in which every phase succeeds. -/
def okRun : PageRun :=
  { url := "http://localhost:3000/"
    pageName := "home"
    timestamp := "2026-01-01T00:00:00.000Z"
    launchOk := true
    setup := Except.ok ()
    navigation := Except.ok 1200
    webVitals := Except.ok { LCP := none, FID := none }
    resourceMetrics := Except.ok { totalResources := 10, totalSize := 50000 }
    jsCoverage := Except.ok [entry10of4]
    cssCoverage := Except.ok [entry10of7]
    lighthouseMetrics := Except.ok heapZero
    save := Except.ok () }

/-- A page run in which everything succeeds except the per-page report
write (`saveResults` throws). -/
def saveFailRun : PageRun :=
  { okRun with save := Except.error ("EACCES: permission denied, open performance-reports") }

/-- A page run in which navigation fails (unreachable target). -/
def navFailRun : PageRun :=
  { okRun with navigation := Except.error ("net::ERR_CONNECTION_REFUSED") }

/-! ## Decimal rendering and parsing: supporting lemmas -/

theorem rat_floor_eq_floor (q : ℚ) : Rat.floor q = ⌊q⌋ := by
  rw [Rat.floor_def', Rat.floor_def]

theorem digitChar_facts :
    ∀ k, k < 10 → digitVal (Nat.digitChar k) = (k : ℚ) ∧ Nat.digitChar k ≠ '.' ∧
      Nat.digitChar k ≠ '-' ∧ (Nat.digitChar k).isDigit = true := by
  with_unfolding_all decide

theorem natDigitsAux_digits :
    ∀ fuel n, n < fuel →
      natDigitsAux fuel n ≠ [] ∧ ∀ c ∈ natDigitsAux fuel n, ∃ k, k < 10 ∧ c = Nat.digitChar k := by
  intro fuel
  induction fuel with
  | zero => intro n h; omega
  | succ fuel ih =>
    intro n h
    by_cases h10 : n < 10
    · refine ⟨by simp [natDigitsAux, h10], ?_⟩
      intro c hc
      simp only [natDigitsAux, if_pos h10, List.mem_singleton] at hc
      exact ⟨n, h10, hc⟩
    · have hdiv : n / 10 < fuel := by
        have := Nat.div_lt_self (show 0 < n by omega) (show 1 < 10 by norm_num)
        omega
      obtain ⟨hne, hmem⟩ := ih (n / 10) hdiv
      refine ⟨by simp [natDigitsAux, h10], ?_⟩
      intro c hc
      simp only [natDigitsAux, if_neg h10, List.mem_append, List.mem_singleton] at hc
      rcases hc with hc | hc
      · exact hmem c hc
      · exact ⟨n % 10, Nat.mod_lt _ (by norm_num), hc⟩

theorem natDigits_digits (n : Nat) :
    natDigits n ≠ [] ∧ ∀ c ∈ natDigits n, ∃ k, k < 10 ∧ c = Nat.digitChar k :=
  natDigitsAux_digits (n + 1) n (Nat.lt_succ_self n)

theorem natDigitsAux_foldl :
    ∀ fuel n, n < fuel → ∀ acc : ℚ,
      (natDigitsAux fuel n).foldl (fun a c => a * 10 + digitVal c) acc
        = acc * 10 ^ (natDigitsAux fuel n).length + n := by
  intro fuel
  induction fuel with
  | zero => intro n h; omega
  | succ fuel ih =>
    intro n h acc
    by_cases h10 : n < 10
    · simp only [natDigitsAux, if_pos h10, List.foldl_cons, List.foldl_nil, List.length_cons,
        List.length_nil]
      rw [(digitChar_facts n h10).1]
      ring
    · have hdiv : n / 10 < fuel := by
        have := Nat.div_lt_self (show 0 < n by omega) (show 1 < 10 by norm_num)
        omega
      simp only [natDigitsAux, if_neg h10, List.foldl_append, List.foldl_cons, List.foldl_nil,
        List.length_append, List.length_cons, List.length_nil]
      rw [ih (n / 10) hdiv acc, (digitChar_facts (n % 10) (Nat.mod_lt _ (by norm_num))).1]
      have hn : (10 : ℚ) * ((n / 10 : Nat) : ℚ) + ((n % 10 : Nat) : ℚ) = (n : ℚ) := by
        exact_mod_cast congrArg (fun m : Nat => (m : ℚ)) (Nat.div_add_mod n 10)
      push_cast
      push_cast at hn
      ring_nf
      ring_nf at hn
      linarith [hn]

theorem natDigits_foldl (n : Nat) (acc : ℚ) :
    (natDigits n).foldl (fun a c => a * 10 + digitVal c) acc
      = acc * 10 ^ (natDigits n).length + n :=
  natDigitsAux_foldl (n + 1) n (Nat.lt_succ_self n) acc

theorem parseAcc_append_digits :
    ∀ (l : List Char), (∀ c ∈ l, c ≠ '.') → ∀ (acc : ℚ) (rest : List Char),
      parseAcc acc (l ++ rest)
        = parseAcc (l.foldl (fun a c => a * 10 + digitVal c) acc) rest := by
  intro l
  induction l with
  | nil => intro _ acc rest; rfl
  | cons c cs ih =>
    intro h acc rest
    have hc : c ≠ '.' := h c (List.mem_cons_self c cs)
    simp only [List.cons_append, parseAcc, if_neg hc, List.foldl_cons]
    exact ih (fun x hx => h x (List.mem_cons_of_mem c hx)) _ rest

theorem parseAcc_dot (acc : ℚ) (cs : List Char) :
    parseAcc acc ('.' :: cs) = acc + parseNatQ cs / 10 ^ cs.length := by
  simp [parseAcc]

theorem parseAcc_toFixed2Digits (n : Nat) :
    parseAcc 0 (toFixed2Digits n) = (n : ℚ) / 100 := by
  obtain ⟨hne, hdig⟩ := natDigits_digits (n / 100)
  have hnodot : ∀ c ∈ natDigits (n / 100), c ≠ '.' := by
    intro c hc
    obtain ⟨k, hk, rfl⟩ := hdig c hc
    exact (digitChar_facts k hk).2.1
  unfold toFixed2Digits
  rw [parseAcc_append_digits (natDigits (n / 100)) hnodot 0, natDigits_foldl, parseAcc_dot]
  have h1 : n % 100 / 10 < 10 := by omega
  have h2 : n % 100 % 10 < 10 := by omega
  have hfrac : parseNatQ [Nat.digitChar (n % 100 / 10), Nat.digitChar (n % 100 % 10)]
      = ((n % 100 : Nat) : ℚ) := by
    simp only [parseNatQ, List.foldl_cons, List.foldl_nil]
    rw [(digitChar_facts _ h1).1, (digitChar_facts _ h2).1]
    have hq : ((n % 100 / 10 : Nat) : ℚ) * 10 + ((n % 100 % 10 : Nat) : ℚ)
        = ((n % 100 : Nat) : ℚ) := by
      exact_mod_cast congrArg (fun m : Nat => (m : ℚ))
        (show (n % 100 / 10) * 10 + n % 100 % 10 = n % 100 by omega)
    linarith [hq]
  rw [hfrac]
  have hdm : (100 : ℚ) * ((n / 100 : Nat) : ℚ) + ((n % 100 : Nat) : ℚ) = (n : ℚ) := by
    exact_mod_cast congrArg (fun m : Nat => (m : ℚ)) (Nat.div_add_mod n 100)
  have hlen : ([Nat.digitChar (n % 100 / 10), Nat.digitChar (n % 100 % 10)] : List Char).length
      = 2 := rfl
  rw [hlen]
  push_cast at hdm
  ring_nf
  ring_nf at hdm
  linarith [hdm]

theorem parseDecL_toFixed2Digits (n : Nat) :
    parseDecL (toFixed2Digits n) = (n : ℚ) / 100 := by
  obtain ⟨hne, hdig⟩ := natDigits_digits (n / 100)
  rw [← parseAcc_toFixed2Digits n]
  cases hEq : natDigits (n / 100) with
  | nil => exact absurd hEq hne
  | cons c cs =>
    have hcmem : c ∈ natDigits (n / 100) := by rw [hEq]; exact List.mem_cons_self c cs
    obtain ⟨k, hk, hck⟩ := hdig c hcmem
    have hcne : c ≠ '-' := by rw [hck]; exact (digitChar_facts k hk).2.2.1
    unfold toFixed2Digits
    rw [hEq, List.cons_append]
    simp [parseDecL, hcne]

theorem parseDecL_toFixed2L (x : ℚ) : parseDecL (toFixed2L x) = toFixed2Val x := by
  unfold toFixed2L toFixed2Val
  by_cases hx : x < 0
  · rw [if_pos hx, if_pos hx]
    have hminus : parseDecL ('-' :: toFixed2Digits (hundredths (-x)))
        = -(parseAcc 0 (toFixed2Digits (hundredths (-x)))) := by
      simp [parseDecL]
    rw [hminus, parseAcc_toFixed2Digits]
  · rw [if_neg hx, if_neg hx]
    exact parseDecL_toFixed2Digits (hundredths x)

theorem jsToNumber_toFixed2 (x : ℚ) :
    jsToNumber (JSValue.str (toFixed2 x)) = toFixed2Val x := by
  simpa [jsToNumber, toFixed2] using parseDecL_toFixed2L x

theorem toFixed2_twoFracDigits (x : ℚ) : twoFracDigits (toFixed2 x) := by
  unfold twoFracDigits toFixed2 toFixed2L
  by_cases hx : x < 0
  · rw [if_pos hx]
    refine ⟨'-' :: natDigits (hundredths (-x) / 100),
      Nat.digitChar (hundredths (-x) % 100 / 10), Nat.digitChar (hundredths (-x) % 100 % 10),
      ?_, ?_, ?_⟩
    · show '-' :: toFixed2Digits (hundredths (-x)) = _
      unfold toFixed2Digits
      simp
    · exact (digitChar_facts _ (by omega)).2.2.2
    · exact (digitChar_facts _ (by omega)).2.2.2
  · rw [if_neg hx]
    refine ⟨natDigits (hundredths x / 100),
      Nat.digitChar (hundredths x % 100 / 10), Nat.digitChar (hundredths x % 100 % 10),
      ?_, ?_, ?_⟩
    · show toFixed2Digits (hundredths x) = _
      unfold toFixed2Digits
      simp
    · exact (digitChar_facts _ (by omega)).2.2.2
    · exact (digitChar_facts _ (by omega)).2.2.2

theorem hundredths_le_10000 {x : ℚ} (h : x ≤ 100) : hundredths x ≤ 10000 := by
  unfold hundredths
  rw [rat_floor_eq_floor]
  have hfl : ⌊x * 100 + 1 / 2⌋ ≤ ⌊(20001 : ℚ) / 2⌋ := Int.floor_le_floor (by linarith)
  have h2 : ⌊(20001 : ℚ) / 2⌋ = 10000 := by norm_num
  omega

theorem toFixed2Val_nonneg {x : ℚ} (h : 0 ≤ x) : 0 ≤ toFixed2Val x := by
  unfold toFixed2Val
  rw [if_neg (not_lt.2 h)]
  positivity

theorem toFixed2Val_le_100 {x : ℚ} (h0 : 0 ≤ x) (h : x ≤ 100) : toFixed2Val x ≤ 100 := by
  unfold toFixed2Val
  rw [if_neg (not_lt.2 h0)]
  have h1 : ((hundredths x : ℚ)) ≤ 10000 := by exact_mod_cast hundredths_le_10000 h
  linarith

/-! ## Bundle analyzer: supporting lemmas -/

theorem foldl_add_eq_sum {α M : Type} [AddCommMonoid M] (f : α → M) :
    ∀ (l : List α) (acc : M), l.foldl (fun a x => a + f x) acc = acc + (l.map f).sum := by
  intro l
  induction l with
  | nil => intro acc; simp
  | cons x xs ih =>
    intro acc
    simp only [List.foldl_cons, List.map_cons, List.sum_cons, ih, add_assoc]

theorem coverageTotalSize_eq (cov : List CoverageEntry) :
    coverageTotalSize cov = (cov.map (fun c => (c.text.length : Int))).sum := by
  unfold coverageTotalSize
  rw [foldl_add_eq_sum]
  simp

theorem coverageUsedSize_foldl :
    ∀ (cov : List CoverageEntry) (acc : Int),
      cov.foldl (fun acc c => c.ranges.foldl (fun a r => a + (r.«end» - r.start)) acc) acc
        = acc + (cov.map entryUsed).sum := by
  intro cov
  induction cov with
  | nil => intro acc; simp
  | cons c cs ih =>
    intro acc
    simp only [List.foldl_cons, List.map_cons, List.sum_cons, ih]
    rw [foldl_add_eq_sum]
    unfold entryUsed
    ring

theorem coverageUsedSize_eq (cov : List CoverageEntry) :
    coverageUsedSize cov = (cov.map entryUsed).sum := by
  unfold coverageUsedSize
  rw [coverageUsedSize_foldl]
  simp

theorem rangesOK_sum :
    ∀ (rs : List CoverageRange) (len lo : Int), rangesOK len lo rs = true → lo ≤ len →
      0 ≤ (rs.map (fun r => r.«end» - r.start)).sum ∧
        (rs.map (fun r => r.«end» - r.start)).sum ≤ len - lo := by
  intro rs
  induction rs with
  | nil =>
    intro len lo _ hlo
    simp only [List.map_nil, List.sum_nil]
    omega
  | cons r rest ih =>
    intro len lo h hlo
    simp only [rangesOK, Bool.and_eq_true, decide_eq_true_eq] at h
    obtain ⟨⟨⟨h1, h2⟩, h3⟩, h4⟩ := h
    obtain ⟨ih0, ih1⟩ := ih len r.«end» h4 h3
    simp only [List.map_cons, List.sum_cons]
    omega

theorem entryUsed_bounds {e : CoverageEntry} (h : e.wellFormed = true) :
    0 ≤ entryUsed e ∧ entryUsed e ≤ (e.text.length : Int) := by
  unfold CoverageEntry.wellFormed at h
  have := rangesOK_sum e.ranges (e.text.length : Int) 0 h (by positivity)
  unfold entryUsed
  omega

theorem coverage_sums {cov : List CoverageEntry} (h : ∀ e ∈ cov, e.wellFormed = true) :
    0 ≤ coverageUsedSize cov ∧ coverageUsedSize cov ≤ coverageTotalSize cov := by
  rw [coverageUsedSize_eq, coverageTotalSize_eq]
  constructor
  · apply List.sum_nonneg
    intro x hx
    obtain ⟨e, he, rfl⟩ := List.mem_map.1 hx
    exact (entryUsed_bounds (h e he)).1
  · apply List.sum_le_sum
    intro e he
    exact (entryUsed_bounds (h e he)).2

theorem mkBundleStat_invariant {totalSize usedSize : Int} (h0 : 0 ≤ usedSize)
    (hle : usedSize ≤ totalSize) : bundleInvariant (mkBundleStat totalSize usedSize) := by
  unfold bundleInvariant mkBundleStat
  dsimp only
  by_cases hpos : totalSize > 0
  · rw [if_pos hpos]
    have htQ : (0 : ℚ) < (totalSize : ℚ) := by exact_mod_cast hpos
    have huQ : (0 : ℚ) ≤ (usedSize : ℚ) := by exact_mod_cast h0
    have hleQ : ((usedSize : ℚ)) ≤ (totalSize : ℚ) := by exact_mod_cast hle
    have hr0 : 0 ≤ (usedSize : ℚ) / (totalSize : ℚ) * 100 := by positivity
    have hr100 : (usedSize : ℚ) / (totalSize : ℚ) * 100 ≤ 100 := by
      have hdiv : (usedSize : ℚ) / (totalSize : ℚ) ≤ 1 := (div_le_one htQ).2 hleQ
      nlinarith
    refine ⟨hle, by omega, ?_, ?_, ?_⟩
    · rw [jsToNumber_toFixed2]
      exact toFixed2Val_nonneg hr0
    · rw [jsToNumber_toFixed2]
      exact toFixed2Val_le_100 hr0 hr100
    · intro hz
      exact absurd hz (by omega)
  · rw [if_neg hpos]
    exact ⟨hle, by omega, by norm_num [jsToNumber], by norm_num [jsToNumber], fun _ => rfl⟩

/-! ## Scoring: supporting lemmas -/

theorem pageScoreRaw_le_100 (r : PageAnalysisResult) : pageScoreRaw r ≤ 100 := by
  unfold pageScoreRaw
  split_ifs <;> norm_num

theorem pageScoreRaw_ge (r : PageAnalysisResult) : -20 ≤ pageScoreRaw r := by
  unfold pageScoreRaw
  split_ifs <;> norm_num

/-! ## Batch runner: supporting lemmas -/

theorem length_filterMap_eq_countP {α β : Type} (f : α → Option β) :
    ∀ l : List α, (l.filterMap f).length = l.countP (fun a => (f a).isSome) := by
  intro l
  induction l with
  | nil => rfl
  | cons x xs ih =>
    cases hfx : f x <;>
      simp [List.filterMap_cons, hfx, List.countP_cons, ih]

theorem except_toOption_isSome {ε α : Type} (e : Except ε α) :
    (e.toOption).isSome = e.isOk := by
  cases e <;> rfl

theorem except_error_bind {ε α β : Type} (e : ε) (f : α → Except ε β) :
    (Except.error e >>= f) = Except.error e := rfl

theorem except_ok_bind {ε α β : Type} (a : α) (f : α → Except ε β) :
    (Except.ok a >>= f) = f a := rfl

theorem filterMap_nil_of_none {α β : Type} (f : α → Option β) :
    ∀ l : List α, (∀ a ∈ l, f a = none) → l.filterMap f = [] := by
  intro l
  induction l with
  | nil => intro _; rfl
  | cons x xs ih =>
    intro h
    rw [List.filterMap_cons, h x (List.mem_cons_self x xs)]
    exact ih (fun a ha => h a (List.mem_cons_of_mem x ha))

/-! ## Resource classifier: supporting lemmas -/

theorem endsWith_false_of_suffix (url pat other : String) (h : pat.data <:+ url.data)
    (h1 : ¬ other.data <:+ pat.data) (h2 : ¬ pat.data <:+ other.data) :
    endsWith other url = false := by
  simp only [endsWith, decide_eq_false_iff_not]
  intro hc
  rcases List.suffix_or_suffix_of_suffix hc h with h3 | h3
  · exact h1 h3
  · exact h2 h3

theorem endsWith_true_of_suffix (url pat : String) (h : pat.data <:+ url.data) :
    endsWith pat url = true := by
  simp only [endsWith, decide_eq_true_eq]
  exact h

theorem mkBundleStat_rate_kind (totalSize usedSize : Int) :
    (0 < totalSize →
      (mkBundleStat totalSize usedSize).utilizationRate
          = JSValue.str (toFixed2 ((usedSize : ℚ) / (totalSize : ℚ) * 100)) ∧
      twoFracDigits (toFixed2 ((usedSize : ℚ) / (totalSize : ℚ) * 100)) ∧
      jsToNumber (mkBundleStat totalSize usedSize).utilizationRate
          = toFixed2Val ((usedSize : ℚ) / (totalSize : ℚ) * 100)) ∧
    (totalSize = 0 → (mkBundleStat totalSize usedSize).utilizationRate = JSValue.num 0) := by
  constructor
  · intro hpos
    unfold mkBundleStat
    dsimp only
    rw [if_pos hpos]
    exact ⟨rfl, toFixed2_twoFracDigits _, jsToNumber_toFixed2 _⟩
  · intro hz
    unfold mkBundleStat
    dsimp only
    rw [if_neg (by omega)]

/-! ## The verified claims -/

/-- C1 (amended): for coverage-entry lists all of whose entries are well
formed (ordered, non-overlapping ranges inside the entry text — the shape
the browser's coverage API produces), both asset classes of
`analyzeBundleSize` satisfy `usedBytes ≤ totalBytes`, `unusedBytes ≥ 0`,
utilization percent in `[0, 100]`, and utilization `0` when
`totalBytes = 0`. -/
theorem analyzeBundleSize_invariants (jsCoverage cssCoverage : List CoverageEntry)
    (hjs : ∀ e ∈ jsCoverage, e.wellFormed = true)
    (hcss : ∀ e ∈ cssCoverage, e.wellFormed = true) :
    bundleInvariant (analyzeBundleSize jsCoverage cssCoverage).javascript ∧
    bundleInvariant (analyzeBundleSize jsCoverage cssCoverage).css := by
  obtain ⟨h1, h2⟩ := coverage_sums hjs
  obtain ⟨h3, h4⟩ := coverage_sums hcss
  exact ⟨mkBundleStat_invariant h1 h2, mkBundleStat_invariant h3 h4⟩

theorem analyzeBundleSize_invariants_witness :
    (∀ e ∈ [entry10of4], e.wellFormed = true) ∧ (∀ e ∈ [entry10of7], e.wellFormed = true) ∧
    (bundleInvariant (analyzeBundleSize [entry10of4] [entry10of7]).javascript ∧
      bundleInvariant (analyzeBundleSize [entry10of4] [entry10of7]).css) :=
  ⟨by with_unfolding_all decide, by with_unfolding_all decide,
    analyzeBundleSize_invariants [entry10of4] [entry10of7]
      (by with_unfolding_all decide) (by with_unfolding_all decide)⟩

/-- C1 counterexample: on a malformed coverage entry (1-byte text, 5-byte
used range) the claimed invariants all fail: used exceeds total, unused is
negative, utilization exceeds 100. -/
theorem analyzeBundleSize_invariants_counterexample :
    (analyzeBundleSize [badEntry] []).javascript.totalSize
        < (analyzeBundleSize [badEntry] []).javascript.usedSize ∧
    (analyzeBundleSize [badEntry] []).javascript.unusedSize < 0 ∧
    100 < jsToNumber (analyzeBundleSize [badEntry] []).javascript.utilizationRate := by
  with_unfolding_all decide

/-- C2: when every page of the batch fails analysis, the persisted overall
summary carries `NaN` (serialized as a non-numeric `null`) — not `0`, and
not any numeric value — for both the average load time and the aggregate
score. -/
theorem allFailed_summary_no_data (pages : List PageRun)
    (h : ∀ p ∈ pages, ((analyzePage p).1).isOk = false) :
    ∃ s : OverallSummary,
      runFullAnalysis pages (Except.ok ()) = Except.ok ([], s) ∧
      s.totalPages = 0 ∧ s.averageLoadTime = JNum.nan ∧ s.performanceScore = JNum.nan ∧
      s.averageLoadTime.isVal = false ∧ s.performanceScore.isVal = false := by
  have hempty : batchResults pages = [] := by
    unfold batchResults
    apply filterMap_nil_of_none
    intro p hp
    have hp2 := h p hp
    cases he : (analyzePage p).1 with
    | ok v => rw [he] at hp2; simp [Except.isOk, Except.toBool] at hp2
    | error er => rfl
  refine ⟨generateOverallSummary [], ?_, rfl, ?_, ?_, ?_, ?_⟩
  · unfold runFullAnalysis
    rw [hempty]
  · with_unfolding_all decide
  · with_unfolding_all decide
  · with_unfolding_all decide
  · with_unfolding_all decide

theorem allFailed_summary_no_data_witness :
    (∀ p ∈ [navFailRun], ((analyzePage p).1).isOk = false) ∧
    (∃ s : OverallSummary,
      runFullAnalysis [navFailRun] (Except.ok ()) = Except.ok ([], s) ∧
      s.totalPages = 0 ∧ s.averageLoadTime = JNum.nan ∧ s.performanceScore = JNum.nan ∧
      s.averageLoadTime.isVal = false ∧ s.performanceScore.isVal = false) :=
  ⟨by with_unfolding_all decide,
    allFailed_summary_no_data [navFailRun] (by with_unfolding_all decide)⟩

/-- C3 counterexample: a batch whose only persistence failure is the
per-page report write finishes with exit code `0` — the failure is caught
inside the batch loop, contradicting the claim that every persistence
failure terminates the run with a non-zero exit. -/
theorem perPage_persistence_counterexample :
    saveFailRun.save = Except.error ("EACCES: permission denied, open performance-reports") ∧
    cliExit [saveFailRun] (Except.ok ()) = 0 := by
  constructor
  · rfl
  · rfl

/-- C3 (amended): a persistence failure in a per-page write makes that
page's analysis fail and is caught by the batch loop like any other
per-page failure (the batch still exits `0`); only a failure of the final
aggregate-summary write escapes the batch driver and yields exit code
`1`. -/
theorem persistence_failure_handling :
    (∀ (run : PageRun) (e : String), run.save = Except.error e →
      ((analyzePage run).1).isOk = false) ∧
    (∀ pages : List PageRun, cliExit pages (Except.ok ()) = 0) ∧
    (∀ (pages : List PageRun) (e : String), cliExit pages (Except.error e) = 1) := by
  refine ⟨?_, ?_, ?_⟩
  · intro run e h
    by_cases hl : run.launchOk = true
    · have hpage : (analyzePage run).1 = analyzePageAux run := by
        unfold analyzePage
        rw [if_pos hl]
      rw [hpage]
      cases hs : run.setup <;> cases hn : run.navigation <;> cases hw : run.webVitals <;>
        cases hr : run.resourceMetrics <;> cases hj : run.jsCoverage <;>
        cases hc : run.cssCoverage <;> cases hm : run.lighthouseMetrics <;>
        simp [analyzePageAux, hs, hn, hw, hr, hj, hc, hm, h, Except.isOk, Except.toBool,
          except_error_bind, except_ok_bind]
    · have hpage : (analyzePage run).1 = Except.error ("Failed to launch the browser process") := by
        unfold analyzePage
        rw [if_neg hl]
      rw [hpage]
      rfl
  · intro pages
    rfl
  · intro pages e
    rfl

theorem persistence_failure_handling_witness :
    saveFailRun.save = Except.error ("EACCES: permission denied, open performance-reports") ∧
    ((analyzePage saveFailRun).1).isOk = false ∧
    cliExit [saveFailRun] (Except.ok ()) = 0 ∧
    cliExit [saveFailRun] (Except.error ("ENOSPC: no space left on device")) = 1 :=
  ⟨rfl,
    persistence_failure_handling.1 saveFailRun
      ("EACCES: permission denied, open performance-reports") rfl,
    persistence_failure_handling.2.1 [saveFailRun],
    persistence_failure_handling.2.2 [saveFailRun] ("ENOSPC: no space left on device")⟩

/-- C4: a page with 4000 ms load time, 40% JavaScript utilization, 70% CSS
utilization, no LCP or FID samples and at most 100 resources scores
`100 − 20 − 15 = 65` and gets exactly the two recommendations for the slow
load and the low JavaScript utilization. -/
theorem score_page4_spec (r : PageAnalysisResult)
    (hload : r.loadTime = 4000)
    (hjs : jsToNumber r.bundleAnalysis.javascript.utilizationRate = 40)
    (hcss : jsToNumber r.bundleAnalysis.css.utilizationRate = 70)
    (hlcp : r.webVitals.LCP = none) (hfid : r.webVitals.FID = none)
    (hres : r.resourceMetrics.totalResources ≤ 100) :
    max 0 (pageScoreRaw r) = 65 ∧ calculateOverallScore [r] = JNum.val 65 ∧
    generateRecommendations r = [jsUtilMsg, slowLoadMsg] := by
  have hjsLt : jsLt r.bundleAnalysis.javascript.utilizationRate 50 = true := by
    simp only [jsLt, hjs]
    norm_num
  have hcssLt : jsLt r.bundleAnalysis.css.utilizationRate 60 = false := by
    simp only [jsLt, hcss]
    norm_num
  have hres' : ¬(r.resourceMetrics.totalResources > 100) := by omega
  have hraw : pageScoreRaw r = 65 := by
    unfold pageScoreRaw
    rw [hload, hjsLt, hcssLt, hlcp, hfid]
    norm_num [optValGt]
  have hmax : max 0 (pageScoreRaw r) = 65 := by rw [hraw]; norm_num
  refine ⟨hmax, ?_, ?_⟩
  · unfold calculateOverallScore
    simp only [List.foldl_cons, List.foldl_nil, List.length_cons, List.length_nil, hmax]
    norm_num [jsDiv, jsRound, rat_floor_eq_floor]
  · unfold generateRecommendations
    rw [hload, hjsLt, hcssLt, hlcp, hfid]
    simp only [optValGt, if_true, if_false, Bool.false_eq_true]
    norm_num [hres']

theorem score_page4_witness :
    page4.loadTime = 4000 ∧
    jsToNumber page4.bundleAnalysis.javascript.utilizationRate = 40 ∧
    jsToNumber page4.bundleAnalysis.css.utilizationRate = 70 ∧
    page4.webVitals.LCP = none ∧ page4.webVitals.FID = none ∧
    page4.resourceMetrics.totalResources ≤ 100 ∧
    (max 0 (pageScoreRaw page4) = 65 ∧ calculateOverallScore [page4] = JNum.val 65 ∧
      generateRecommendations page4 = [jsUtilMsg, slowLoadMsg]) :=
  ⟨rfl, by with_unfolding_all decide, by with_unfolding_all decide, rfl, rfl,
    by norm_num [page4],
    score_page4_spec page4 rfl (by with_unfolding_all decide) (by with_unfolding_all decide)
      rfl rfl (by norm_num [page4])⟩

/-- C5: a page with 6000 ms load time, 80% JavaScript and CSS utilization,
LCP 3000 ms and FID 150 ms scores `100 − 20 − 30 − 25 − 20 = 5`: both
load-time deductions apply simultaneously since 6000 exceeds both 3000 and
5000. -/
theorem score_page5_spec (r : PageAnalysisResult) (lcpRating fidRating : String)
    (hload : r.loadTime = 6000)
    (hjs : jsToNumber r.bundleAnalysis.javascript.utilizationRate = 80)
    (hcss : jsToNumber r.bundleAnalysis.css.utilizationRate = 80)
    (hlcp : r.webVitals.LCP = some { value := 3000, rating := lcpRating })
    (hfid : r.webVitals.FID = some { value := 150, rating := fidRating }) :
    max 0 (pageScoreRaw r) = 5 ∧ calculateOverallScore [r] = JNum.val 5 := by
  have hjsLt : jsLt r.bundleAnalysis.javascript.utilizationRate 50 = false := by
    simp only [jsLt, hjs]
    norm_num
  have hcssLt : jsLt r.bundleAnalysis.css.utilizationRate 60 = false := by
    simp only [jsLt, hcss]
    norm_num
  have hraw : pageScoreRaw r = 5 := by
    unfold pageScoreRaw
    rw [hload, hjsLt, hcssLt, hlcp, hfid]
    norm_num [optValGt]
  have hmax : max 0 (pageScoreRaw r) = 5 := by rw [hraw]; norm_num
  refine ⟨hmax, ?_⟩
  unfold calculateOverallScore
  simp only [List.foldl_cons, List.foldl_nil, List.length_cons, List.length_nil, hmax]
  norm_num [jsDiv, jsRound, rat_floor_eq_floor]

theorem score_page5_witness :
    page5.loadTime = 6000 ∧
    jsToNumber page5.bundleAnalysis.javascript.utilizationRate = 80 ∧
    jsToNumber page5.bundleAnalysis.css.utilizationRate = 80 ∧
    page5.webVitals.LCP = some { value := 3000, rating := "poor" } ∧
    page5.webVitals.FID = some { value := 150, rating := "poor" } ∧
    (max 0 (pageScoreRaw page5) = 5 ∧ calculateOverallScore [page5] = JNum.val 5) :=
  ⟨rfl, by with_unfolding_all decide, by with_unfolding_all decide, rfl, rfl,
    score_page5_spec page5 ("poor") ("poor") rfl (by with_unfolding_all decide)
      (by with_unfolding_all decide) rfl rfl⟩

/-- C6: the clamped per-page score always lies in `[0, 100]`, and scoring
is deterministic: identical inputs yield identical score and
recommendation list. -/
theorem score_clamped_deterministic (r₁ r₂ : PageAnalysisResult) (h : r₁ = r₂) :
    0 ≤ max 0 (pageScoreRaw r₁) ∧ max 0 (pageScoreRaw r₁) ≤ 100 ∧
    (max 0 (pageScoreRaw r₁), generateRecommendations r₁)
      = (max 0 (pageScoreRaw r₂), generateRecommendations r₂) := by
  subst h
  exact ⟨le_max_left 0 _, max_le (by norm_num) (pageScoreRaw_le_100 r₁), rfl⟩

theorem score_clamped_deterministic_witness :
    page4 = page4 ∧
    (0 ≤ max 0 (pageScoreRaw page4) ∧ max 0 (pageScoreRaw page4) ≤ 100 ∧
      (max 0 (pageScoreRaw page4), generateRecommendations page4)
        = (max 0 (pageScoreRaw page4), generateRecommendations page4)) :=
  ⟨rfl, score_clamped_deterministic page4 page4 rfl⟩

/-- C7: the persisted overall summary counts only pages whose analysis
succeeded — `totalPages` is the number of successes and `averageLoadTime`
is the arithmetic mean of the successful pages' load times; failed pages
contribute to neither. -/
theorem summary_counts_successes (pages : List PageRun)
    (h : 0 < pages.countP (fun p => ((analyzePage p).1).isOk)) :
    ∃ (rs : List PageAnalysisResult) (s : OverallSummary),
      runFullAnalysis pages (Except.ok ()) = Except.ok (rs, s) ∧
      rs = pages.filterMap (fun p => ((analyzePage p).1).toOption) ∧
      s.totalPages = pages.countP (fun p => ((analyzePage p).1).isOk) ∧
      s.averageLoadTime
        = JNum.val ((rs.map (fun r => r.loadTime)).sum
            / (pages.countP (fun p => ((analyzePage p).1).isOk) : ℚ)) := by
  have hfun : (fun p : PageRun => (((analyzePage p).1).toOption).isSome)
      = (fun p : PageRun => ((analyzePage p).1).isOk) :=
    funext fun p => except_toOption_isSome ((analyzePage p).1)
  have hlen : (batchResults pages).length
      = pages.countP (fun p => ((analyzePage p).1).isOk) := by
    unfold batchResults
    rw [length_filterMap_eq_countP, hfun]
  refine ⟨batchResults pages, generateOverallSummary (batchResults pages), rfl, rfl, hlen, ?_⟩
  unfold generateOverallSummary
  dsimp only
  rw [foldl_add_eq_sum (fun r : PageAnalysisResult => r.loadTime), zero_add, hlen]
  unfold jsDiv
  rw [if_neg (by exact_mod_cast Nat.pos_iff_ne_zero.1 h)]

theorem summary_counts_successes_witness :
    0 < ([okRun, navFailRun].countP (fun p => ((analyzePage p).1).isOk)) ∧
    (∃ (rs : List PageAnalysisResult) (s : OverallSummary),
      runFullAnalysis [okRun, navFailRun] (Except.ok ()) = Except.ok (rs, s) ∧
      rs = [okRun, navFailRun].filterMap (fun p => ((analyzePage p).1).toOption) ∧
      s.totalPages = [okRun, navFailRun].countP (fun p => ((analyzePage p).1).isOk) ∧
      s.averageLoadTime
        = JNum.val ((rs.map (fun r => r.loadTime)).sum
            / ([okRun, navFailRun].countP (fun p => ((analyzePage p).1).isOk) : ℚ))) :=
  ⟨by with_unfolding_all decide,
    summary_counts_successes [okRun, navFailRun] (by with_unfolding_all decide)⟩

/-- C8: the resource classifier sends a URL ending in `.woff2` to `fonts`,
a URL ending in `.module.css` to `stylesheets`, any URL matching none of
the four extension patterns to `other`, and assigns every URL exactly one
of the five categories. -/
theorem getResourceType_spec (url : String) :
    ((".woff2").data <:+ url.data → getResourceType url = "fonts") ∧
    ((".module.css").data <:+ url.data → getResourceType url = "stylesheets") ∧
    (matchesScripts url = false → matchesStylesheets url = false →
      matchesImages url = false → matchesFonts url = false →
      getResourceType url = "other") ∧
    (getResourceType url = "scripts" ∨ getResourceType url = "stylesheets" ∨
      getResourceType url = "images" ∨ getResourceType url = "fonts" ∨
      getResourceType url = "other") := by
  refine ⟨?_, ?_, ?_, ?_⟩
  · intro h
    have e1 := endsWith_false_of_suffix url (".woff2") (".js") h (by decide) (by decide)
    have e2 := endsWith_false_of_suffix url (".woff2") (".jsx") h (by decide) (by decide)
    have e3 := endsWith_false_of_suffix url (".woff2") (".ts") h (by decide) (by decide)
    have e4 := endsWith_false_of_suffix url (".woff2") (".tsx") h (by decide) (by decide)
    have e5 := endsWith_false_of_suffix url (".woff2") (".css") h (by decide) (by decide)
    have e6 := endsWith_false_of_suffix url (".woff2") (".scss") h (by decide) (by decide)
    have e7 := endsWith_false_of_suffix url (".woff2") (".sass") h (by decide) (by decide)
    have e8 := endsWith_false_of_suffix url (".woff2") (".jpg") h (by decide) (by decide)
    have e9 := endsWith_false_of_suffix url (".woff2") (".jpeg") h (by decide) (by decide)
    have e10 := endsWith_false_of_suffix url (".woff2") (".png") h (by decide) (by decide)
    have e11 := endsWith_false_of_suffix url (".woff2") (".gif") h (by decide) (by decide)
    have e12 := endsWith_false_of_suffix url (".woff2") (".webp") h (by decide) (by decide)
    have e13 := endsWith_false_of_suffix url (".woff2") (".avif") h (by decide) (by decide)
    have e14 := endsWith_false_of_suffix url (".woff2") (".svg") h (by decide) (by decide)
    have e15 := endsWith_true_of_suffix url (".woff2") h
    simp [getResourceType, matchesScripts, matchesStylesheets, matchesImages, matchesFonts,
      e1, e2, e3, e4, e5, e6, e7, e8, e9, e10, e11, e12, e13, e14, e15]
  · intro h
    have e1 := endsWith_false_of_suffix url (".module.css") (".js") h (by decide) (by decide)
    have e2 := endsWith_false_of_suffix url (".module.css") (".jsx") h (by decide) (by decide)
    have e3 := endsWith_false_of_suffix url (".module.css") (".ts") h (by decide) (by decide)
    have e4 := endsWith_false_of_suffix url (".module.css") (".tsx") h (by decide) (by decide)
    have e5 := endsWith_true_of_suffix url (".css")
      (List.IsSuffix.trans (by decide) h)
    simp [getResourceType, matchesScripts, matchesStylesheets,
      e1, e2, e3, e4, e5]
  · intro h1 h2 h3 h4
    simp [getResourceType, h1, h2, h3, h4]
  · unfold getResourceType
    split_ifs <;> simp

theorem getResourceType_spec_witness :
    getResourceType ("font.woff2") = "fonts" ∧
    getResourceType ("styles.module.css") = "stylesheets" ∧
    getResourceType ("data.bin") = "other" :=
  ⟨(getResourceType_spec ("font.woff2")).1 (by decide),
    (getResourceType_spec ("styles.module.css")).2.1 (by decide),
    (getResourceType_spec ("data.bin")).2.2.1 (by decide) (by decide) (by decide) (by decide)⟩

/-- C9: whenever the browser session is successfully acquired, the browser
process is closed on every exit path of `analyzePage` — the event trace
ends with `close` no matter which phase succeeds or throws. -/
theorem browser_always_closed (run : PageRun) (h : run.launchOk = true) :
    (analyzePage run).2 = [BrowserEvent.launch, BrowserEvent.close] ∧
    BrowserEvent.close ∈ (analyzePage run).2 := by
  unfold analyzePage
  rw [if_pos h]
  exact ⟨rfl, by simp⟩

theorem browser_always_closed_witness :
    saveFailRun.launchOk = true ∧
    ((analyzePage saveFailRun).2 = [BrowserEvent.launch, BrowserEvent.close] ∧
      BrowserEvent.close ∈ (analyzePage saveFailRun).2) :=
  ⟨rfl, browser_always_closed saveFailRun rfl⟩

/-- C10: with a positive total the analyzer's `utilizationRate` is the
`toFixed(2)` decimal string (ending in a point and exactly two digits) of
`used / total * 100`, whose `ToNumber` coercion — the coercion the scoring
thresholds rely on — equals the rounded value; with total `0` it is the
number `0`, so the field's kind differs between the branches. -/
theorem utilizationRate_kind (jsCoverage cssCoverage : List CoverageEntry) :
    (0 < (analyzeBundleSize jsCoverage cssCoverage).javascript.totalSize →
      (analyzeBundleSize jsCoverage cssCoverage).javascript.utilizationRate
          = JSValue.str (toFixed2
              (((analyzeBundleSize jsCoverage cssCoverage).javascript.usedSize : ℚ)
                / ((analyzeBundleSize jsCoverage cssCoverage).javascript.totalSize : ℚ) * 100)) ∧
      twoFracDigits (toFixed2
          (((analyzeBundleSize jsCoverage cssCoverage).javascript.usedSize : ℚ)
            / ((analyzeBundleSize jsCoverage cssCoverage).javascript.totalSize : ℚ) * 100)) ∧
      jsToNumber (analyzeBundleSize jsCoverage cssCoverage).javascript.utilizationRate
          = toFixed2Val
              (((analyzeBundleSize jsCoverage cssCoverage).javascript.usedSize : ℚ)
                / ((analyzeBundleSize jsCoverage cssCoverage).javascript.totalSize : ℚ) * 100) ∧
      jsLt (analyzeBundleSize jsCoverage cssCoverage).javascript.utilizationRate 50
          = decide (toFixed2Val
              (((analyzeBundleSize jsCoverage cssCoverage).javascript.usedSize : ℚ)
                / ((analyzeBundleSize jsCoverage cssCoverage).javascript.totalSize : ℚ) * 100)
              < 50)) ∧
    ((analyzeBundleSize jsCoverage cssCoverage).javascript.totalSize = 0 →
      (analyzeBundleSize jsCoverage cssCoverage).javascript.utilizationRate = JSValue.num 0) ∧
    (0 < (analyzeBundleSize jsCoverage cssCoverage).css.totalSize →
      (analyzeBundleSize jsCoverage cssCoverage).css.utilizationRate
          = JSValue.str (toFixed2
              (((analyzeBundleSize jsCoverage cssCoverage).css.usedSize : ℚ)
                / ((analyzeBundleSize jsCoverage cssCoverage).css.totalSize : ℚ) * 100)) ∧
      jsLt (analyzeBundleSize jsCoverage cssCoverage).css.utilizationRate 60
          = decide (toFixed2Val
              (((analyzeBundleSize jsCoverage cssCoverage).css.usedSize : ℚ)
                / ((analyzeBundleSize jsCoverage cssCoverage).css.totalSize : ℚ) * 100)
              < 60)) ∧
    ((analyzeBundleSize jsCoverage cssCoverage).css.totalSize = 0 →
      (analyzeBundleSize jsCoverage cssCoverage).css.utilizationRate = JSValue.num 0) := by
  refine ⟨?_, ?_, ?_, ?_⟩
  · intro hpos
    obtain ⟨hrate, hfrac, hnum⟩ :=
      (mkBundleStat_rate_kind (coverageTotalSize jsCoverage) (coverageUsedSize jsCoverage)).1 hpos
    have hnum' : jsToNumber (analyzeBundleSize jsCoverage cssCoverage).javascript.utilizationRate
        = toFixed2Val
            (((analyzeBundleSize jsCoverage cssCoverage).javascript.usedSize : ℚ)
              / ((analyzeBundleSize jsCoverage cssCoverage).javascript.totalSize : ℚ) * 100) :=
      hnum
    refine ⟨hrate, hfrac, hnum, ?_⟩
    simp only [jsLt, hnum']
  · exact (mkBundleStat_rate_kind (coverageTotalSize jsCoverage) (coverageUsedSize jsCoverage)).2
  · intro hpos
    obtain ⟨hrate, hfrac, hnum⟩ :=
      (mkBundleStat_rate_kind (coverageTotalSize cssCoverage) (coverageUsedSize cssCoverage)).1 hpos
    have hnum' : jsToNumber (analyzeBundleSize jsCoverage cssCoverage).css.utilizationRate
        = toFixed2Val
            (((analyzeBundleSize jsCoverage cssCoverage).css.usedSize : ℚ)
              / ((analyzeBundleSize jsCoverage cssCoverage).css.totalSize : ℚ) * 100) :=
      hnum
    refine ⟨hrate, ?_⟩
    simp only [jsLt, hnum']
  · exact (mkBundleStat_rate_kind (coverageTotalSize cssCoverage) (coverageUsedSize cssCoverage)).2

theorem utilizationRate_kind_witness :
    0 < (analyzeBundleSize [entry10of4] []).javascript.totalSize ∧
    (analyzeBundleSize [entry10of4] []).css.totalSize = 0 ∧
    ((analyzeBundleSize [entry10of4] []).javascript.utilizationRate
        = JSValue.str (toFixed2
            (((analyzeBundleSize [entry10of4] []).javascript.usedSize : ℚ)
              / ((analyzeBundleSize [entry10of4] []).javascript.totalSize : ℚ) * 100)) ∧
      twoFracDigits (toFixed2
          (((analyzeBundleSize [entry10of4] []).javascript.usedSize : ℚ)
            / ((analyzeBundleSize [entry10of4] []).javascript.totalSize : ℚ) * 100)) ∧
      jsToNumber (analyzeBundleSize [entry10of4] []).javascript.utilizationRate
          = toFixed2Val
              (((analyzeBundleSize [entry10of4] []).javascript.usedSize : ℚ)
                / ((analyzeBundleSize [entry10of4] []).javascript.totalSize : ℚ) * 100) ∧
      jsLt (analyzeBundleSize [entry10of4] []).javascript.utilizationRate 50
          = decide (toFixed2Val
              (((analyzeBundleSize [entry10of4] []).javascript.usedSize : ℚ)
                / ((analyzeBundleSize [entry10of4] []).javascript.totalSize : ℚ) * 100)
              < 50)) ∧
    (analyzeBundleSize [entry10of4] []).css.utilizationRate = JSValue.num 0 :=
  ⟨by with_unfolding_all decide, by with_unfolding_all decide,
    (utilizationRate_kind [entry10of4] []).1 (by with_unfolding_all decide),
    (utilizationRate_kind [entry10of4] []).2.2.2 (by with_unfolding_all decide)⟩
